import Mathlib

/-!
Shallow embedding of the Holiday Panic Factory core: the four player
mini-game mechanics (`players.py`), the static order catalog and constants
(`config.py`), and the round orchestrator (`game.py`).

Python floats are modelled as rationals (`ℚ`), Python ints as `Nat`/`Int`,
Python's `None`-able fields as `Option`.  Randomness (Foreman drift draw,
Decorator sequence generation, order selection) is injected as explicit
parameters, mirroring the values `random` would produce.  Rendering, audio
and asset lookups are side effects outside the modelled core; the round
result keeps the order name and the four success booleans that the reveal
screen consumes.
-/

namespace HolidayPanic

/-- The four arrow directions of `config.ARROW_DIRECTIONS`. -/
inductive Direction where
  | up
  | down
  | left
  | right
deriving DecidableEq

/-- `config.ARROW_DIRECTIONS = ['UP', 'DOWN', 'LEFT', 'RIGHT']`. -/
def ARROW_DIRECTIONS : List Direction := [.up, .down, .left, .right]

/-- `config.OrderTier` (EASY = 1, STANDARD = 2, NIGHTMARE = 3). -/
inductive OrderTier where
  | easy
  | standard
  | nightmare
deriving DecidableEq

/-- `config.GameState` string constants. -/
inductive GameState where
  | menu
  | briefing
  | playing
  | reveal
  | game_over
deriving DecidableEq

/-- One entry of `config.ORDERS` (the asset and dialog strings that the
core never branches on are dropped except for the name, which the round
result keeps). -/
structure OrderDef where
  name : String
  p3_arrows : Nat
  time_limit : ℚ
  p1_decay_rate : ℚ
  p2_zone_size : ℚ

/-- `config.ORDERS`: the shipped catalog, three orders per tier. -/
def ORDERS : OrderTier → List OrderDef
  | .easy =>
      [⟨"Socks", 4, 8, 3/10, 3/10⟩,
       ⟨"Ball", 5, 8, 35/100, 28/100⟩,
       ⟨"Box", 6, 9, 4/10, 26/100⟩]
  | .standard =>
      [⟨"Robot", 10, 12, 7/10, 18/100⟩,
       ⟨"Doll", 12, 13, 75/100, 16/100⟩,
       ⟨"Bicycle", 15, 14, 8/10, 15/100⟩]
  | .nightmare =>
      [⟨"Grand Piano", 25, 18, 15/10, 5/100⟩,
       ⟨"T-Rex", 30, 20, 18/10, 5/100⟩,
       ⟨"Spaceship", 28, 19, 16/10, 6/100⟩]

/-- `config.BUILDER_QUALITY_LINE = 0.5`. -/
def BUILDER_QUALITY_LINE : ℚ := 1/2

/-- `config.BRIEFING_DURATION = 4`. -/
def BRIEFING_DURATION : ℚ := 4

/-- `config.REVEAL_DURATION = 5`. -/
def REVEAL_DURATION : ℚ := 5

/-- `config.ForemanSettings` drift multipliers. -/
def NIGHTMARE_DRIFT_MULTIPLIER : ℚ := 25/10

def STANDARD_DRIFT_MULTIPLIER : ℚ := 15/10

def EASY_DRIFT_MULTIPLIER : ℚ := 1

/-! ## Builder (players.py, class Builder) -/

/-- Player 1 state: `Builder.__init__` fields (`success` from the `Player`
base class). -/
structure Builder where
  success : Bool
  quality_bar : ℚ
  decay_rate : ℚ
  fill_rate : ℚ

namespace Builder

/-- `Builder.__init__`: quality_bar 0.0, decay_rate 0.5, fill_rate 0.15. -/
def init : Builder := ⟨false, 0, 1/2, 3/20⟩

/-- `Builder.reset`: success false, quality_bar 0.5. -/
def reset (b : Builder) : Builder :=
  { b with success := false, quality_bar := 1/2 }

/-- `Builder.set_difficulty(decay_rate)`. -/
def set_difficulty (b : Builder) (decay : ℚ) : Builder :=
  { b with decay_rate := decay }

/-- `Builder.update(dt, input_manager)`, with the input manager's
`p1_input['any']` (either control held) passed as a boolean.  Decays the
bar, fills on activity, then clamps to [0,1]. -/
def update (b : Builder) (dt : ℚ) (anyHeld : Bool) : Builder :=
  let q := b.quality_bar - b.decay_rate * dt
  let q := if anyHeld then q + b.fill_rate * dt else q
  { b with quality_bar := max 0 (min 1 q) }

/-- `Builder.check_success`: quality_bar ≥ BUILDER_QUALITY_LINE (the
returned boolean; Python also caches it in `self.success`, which the core
never reads afterwards). -/
def check_success (b : Builder) : Bool :=
  decide (BUILDER_QUALITY_LINE ≤ b.quality_bar)

end Builder

/-- Folding `Builder.update` over a list of (dt, anyHeld) ticks. -/
def builderRun (b : Builder) (steps : List (ℚ × Bool)) : Builder :=
  steps.foldl (fun b s => b.update s.1 s.2) b

/-! ## Wrapper (players.py, class Wrapper) -/

/-- Player 2 state: `Wrapper.__init__` fields. -/
structure Wrapper where
  success : Bool
  cursor_position : ℚ
  cursor_speed : ℚ
  cursor_direction : ℤ
  zone_size : ℚ
  zone_center : ℚ
  has_pressed : Bool
  press_position : Option ℚ

namespace Wrapper

/-- `Wrapper.__init__`: cursor at 0, speed 0.8, direction 1, zone_size 0.3,
zone_center 0.5, not pressed. -/
def init : Wrapper := ⟨false, 0, 4/5, 1, 3/10, 1/2, false, none⟩

/-- `Wrapper.reset`: success false, cursor_position 0, has_pressed false,
press_position None.  (`cursor_direction` is not touched.) -/
def reset (w : Wrapper) : Wrapper :=
  { w with success := false, cursor_position := 0,
           has_pressed := false, press_position := none }

/-- `Wrapper.set_difficulty(zone_size)`. -/
def set_difficulty (w : Wrapper) (zs : ℚ) : Wrapper :=
  { w with zone_size := zs }

/-- `Wrapper.update(dt, input_manager)`, with `p2_input['pressed']` passed
as a boolean: while not latched, advance the cursor, bounce at the bounds,
then latch on a press. -/
def update (w : Wrapper) (dt : ℚ) (pressed : Bool) : Wrapper :=
  if w.has_pressed then w
  else
    let pos := w.cursor_position + w.cursor_speed * (w.cursor_direction : ℚ) * dt
    let pd : ℚ × ℤ :=
      if 1 ≤ pos then (1, -1)
      else if pos ≤ 0 then (0, 1)
      else (pos, w.cursor_direction)
    if pressed then
      { w with cursor_position := pd.1, cursor_direction := pd.2,
               has_pressed := true, press_position := some pd.1 }
    else
      { w with cursor_position := pd.1, cursor_direction := pd.2 }

/-- `Wrapper.check_success`: false when never pressed, else the inclusive
zone test around `zone_center`. -/
def check_success (w : Wrapper) : Bool :=
  match w.press_position with
  | none => false
  | some p =>
      decide (w.zone_center - w.zone_size / 2 ≤ p) &&
      decide (p ≤ w.zone_center + w.zone_size / 2)

end Wrapper

/-! ## Decorator (players.py, class Decorator) -/

/-- Player 3 state: `Decorator.__init__` fields. -/
structure Decorator where
  success : Bool
  arrow_sequence : List Direction
  current_index : Nat
  completed : Bool

namespace Decorator

/-- `Decorator.__init__`. -/
def init : Decorator := ⟨false, [], 0, false⟩

/-- `Decorator.reset`: success false, current_index 0, completed false
(the sequence itself is replaced by `set_difficulty`). -/
def reset (d : Decorator) : Decorator :=
  { d with success := false, current_index := 0, completed := false }

/-- `Decorator.set_difficulty(arrow_count)`: draws `arrow_count`
independent choices from ARROW_DIRECTIONS; the random draws are injected
as `draw`. -/
def set_difficulty (d : Decorator) (arrow_count : Nat)
    (draw : Nat → Direction) : Decorator :=
  { d with arrow_sequence := (List.range arrow_count).map draw }

/-- `Decorator.update(dt, input_manager)`, with the input manager's
`keys_pressed` list (edge-triggered arrows this tick) passed in.  When
already completed, do nothing; when the index has reached the length, set
completed and success; otherwise advance on the expected arrow (inclusion
test), reset to 0 on any non-empty wrong press set, and leave the index
unchanged on an empty press set.  `dt` is unused, as in the source. -/
def update (d : Decorator) (dt : ℚ) (arrows_pressed : List Direction) :
    Decorator :=
  if d.completed then d
  else if h : d.arrow_sequence.length ≤ d.current_index then
    { d with completed := true, success := true }
  else
    let expected := d.arrow_sequence.get ⟨d.current_index, by omega⟩
    if expected ∈ arrows_pressed then
      { d with current_index := d.current_index + 1 }
    else if 0 < arrows_pressed.length then
      { d with current_index := 0 }
    else d

/-- `Decorator.check_success`: returns the stored success flag. -/
def check_success (d : Decorator) : Bool := d.success

end Decorator

/-- Folding `Decorator.update` (with a unit dt, which the update ignores)
over a list of per-tick pressed-arrow lists. -/
def decoratorRun (d : Decorator) (ticks : List (List Direction)) : Decorator :=
  ticks.foldl (fun d t => d.update 1 t) d

/-! ## Foreman (players.py, class Foreman) -/

/-- Player 4 state: `Foreman.__init__` fields. -/
structure Foreman where
  success : Bool
  needle_position : ℚ
  drift_speed : ℚ
  control_speed : ℚ
  drift_multiplier : ℚ

namespace Foreman

/-- `Foreman.__init__`: needle 0.5, drift_speed 0.3, control_speed 0.6,
multiplier 1.0. -/
def init : Foreman := ⟨false, 1/2, 3/10, 3/5, 1⟩

/-- `Foreman.reset`. -/
def reset (f : Foreman) : Foreman :=
  { f with success := false, needle_position := 1/2 }

/-- `Foreman.set_difficulty(tier)`. -/
def set_difficulty (f : Foreman) (tier : OrderTier) : Foreman :=
  { f with drift_multiplier :=
      match tier with
      | .nightmare => NIGHTMARE_DRIFT_MULTIPLIER
      | .standard => STANDARD_DRIFT_MULTIPLIER
      | .easy => EASY_DRIFT_MULTIPLIER }

/-- `Foreman.update(dt, input_manager)`: `r` is the injected
`random.uniform(-1, 1)` draw; `leftHeld`/`rightHeld` are
`p4_input['left']`/`['right']`.  Drift, then player correction, then
clamp to [0,1]. -/
def update (f : Foreman) (dt r : ℚ) (leftHeld rightHeld : Bool) : Foreman :=
  let pos := f.needle_position + r * f.drift_speed * f.drift_multiplier * dt
  let pos := if leftHeld then pos - f.control_speed * dt else pos
  let pos := if rightHeld then pos + f.control_speed * dt else pos
  { f with needle_position := max 0 (min 1 pos) }

/-- `Foreman.check_success`: |needle − 0.5| < 0.3. -/
def check_success (f : Foreman) : Bool :=
  decide (|f.needle_position - 1/2| < 3/10)

end Foreman

/-- Folding `Foreman.update` with no held inputs over (dt, r) ticks. -/
def foremanRunNoInput (f : Foreman) (steps : List (ℚ × ℚ)) : Foreman :=
  steps.foldl (fun f s => f.update s.1 s.2 false false) f

/-! ## Round orchestrator (game.py, class Game) -/

/-- The per-tick input snapshot the core reads from the input manager:
`p1_input['any']`, `p2_input['pressed']`, `p3_input['keys_pressed']`,
`p4_input['left']`/`['right']`, and the MENU_CONFIRM event. -/
structure InputSnapshot where
  p1_any : Bool
  p2_pressed : Bool
  p3_arrows : List Direction
  p4_left : Bool
  p4_right : Bool
  confirm : Bool

/-- `Game.round_results` as read by the reveal screen: the order name and
the `'successes'` list `[builder, wrapper, decorator, foreman]` (the three
sprite entries are asset-manager lookups keyed by those same booleans and
are outside the modelled core). -/
structure RoundResults where
  toy_name : String
  successes : List Bool

/-- `Game.__init__` state (managers, drawing and sprite caches dropped;
`round_results` is `none` until the first Playing→Reveal transition). -/
structure Game where
  state : GameState
  current_order : Option OrderDef
  current_tier : Option OrderTier
  round_number : Nat
  score : ℤ
  state_timer : ℚ
  builder : Builder
  wrapper : Wrapper
  decorator : Decorator
  foreman : Foreman
  round_results : Option RoundResults

/-- The tier threshold logic inside `Game.start_new_round`: rounds ≤ 3
EASY, ≤ 7 STANDARD, else NIGHTMARE. -/
def tierFor (n : Nat) : OrderTier :=
  if n ≤ 3 then .easy
  else if n ≤ 7 then .standard
  else .nightmare

/-- `random.choice(ORDERS[tier])` with the random index injected: the
element at `i` modulo the tier list's length. -/
def chooseOrder (tier : OrderTier) (i : Nat) : OrderDef :=
  (ORDERS tier).getD (i % (ORDERS tier).length) ⟨"Socks", 4, 8, 3/10, 3/10⟩

namespace Game

/-- `Game.__init__`. -/
def init : Game :=
  ⟨.menu, none, none, 0, 0, 0,
   Builder.init, Wrapper.init, Decorator.init, Foreman.init, none⟩

/-- `Game.start_new_round`: increment the round counter, pick the tier by
threshold, pick an order from that tier (injected random index), and enter
Briefing with its fixed duration. -/
def start_new_round (g : Game) (choiceIdx : Nat) : Game :=
  let n := g.round_number + 1
  let tier := tierFor n
  { g with round_number := n,
           current_tier := some tier,
           current_order := some (chooseOrder tier choiceIdx),
           state := .briefing,
           state_timer := BRIEFING_DURATION }

/-- `Game.start_action_phase`: enter Playing with the order's time limit,
reset all four mechanics, then configure each from the order/tier.  The
`none` branches are unreachable in the game loop (Briefing is only entered
with an order selected). -/
def start_action_phase (g : Game) (draw : Nat → Direction) : Game :=
  match g.current_order, g.current_tier with
  | some ord, some tier =>
      { g with state := .playing,
               state_timer := ord.time_limit,
               builder := (g.builder.reset).set_difficulty ord.p1_decay_rate,
               wrapper := (g.wrapper.reset).set_difficulty ord.p2_zone_size,
               decorator := (g.decorator.reset).set_difficulty ord.p3_arrows draw,
               foreman := (g.foreman.reset).set_difficulty tier }
  | _, _ => g

/-- `Game.end_action_phase`: enter Reveal, evaluate the four success
predicates in the fixed order Builder, Wrapper, Decorator, Foreman, build
the result record, and add the round score (`sum(successes)`) to the
cumulative score. -/
def end_action_phase (g : Game) : Game :=
  let builder_success := g.builder.check_success
  let wrapper_success := g.wrapper.check_success
  let decorator_success := g.decorator.check_success
  let foreman_success := g.foreman.check_success
  let successes :=
    [builder_success, wrapper_success, decorator_success, foreman_success]
  { g with state := .reveal,
           state_timer := REVEAL_DURATION,
           round_results :=
             some ⟨(g.current_order.map OrderDef.name).getD "", successes⟩,
           score := g.score + successes.count true }

/-- `Game.update(dt, input_manager)`: the top-level state machine step.
`r` is Foreman's injected drift draw, `draw` the Decorator's injected
sequence draws, `choiceIdx` the injected order-selection index. -/
def update (g : Game) (dt : ℚ) (inp : InputSnapshot) (r : ℚ)
    (draw : Nat → Direction) (choiceIdx : Nat) : Game :=
  match g.state with
  | .menu =>
      if inp.confirm then g.start_new_round choiceIdx else g
  | .briefing =>
      let g := { g with state_timer := g.state_timer - dt }
      if g.state_timer ≤ 0 then g.start_action_phase draw else g
  | .playing =>
      let g := { g with state_timer := g.state_timer - dt }
      let g := { g with
        builder := g.builder.update dt inp.p1_any,
        wrapper := g.wrapper.update dt inp.p2_pressed,
        decorator := g.decorator.update dt inp.p3_arrows,
        foreman := g.foreman.update dt r inp.p4_left inp.p4_right }
      if g.state_timer ≤ 0 then g.end_action_phase else g
  | .reveal =>
      let g := { g with state_timer := g.state_timer - dt }
      if g.state_timer ≤ 0 then
        if inp.confirm then g.start_new_round choiceIdx else g
      else g
  | .game_over => g

end Game

/-! ## Helper lemmas -/

/-- Unfolding of `Builder.update`'s quality bar. -/
lemma builderUpdate_quality_bar (b : Builder) (dt : ℚ) (i : Bool) :
    (b.update dt i).quality_bar =
      max 0 (min 1 (if i then b.quality_bar - b.decay_rate * dt + b.fill_rate * dt
                    else b.quality_bar - b.decay_rate * dt)) := rfl

/-- One `Builder.update` lands the bar in [0,1], from any starting value. -/
lemma builderUpdate_bounds (b : Builder) (dt : ℚ) (i : Bool) :
    0 ≤ (b.update dt i).quality_bar ∧ (b.update dt i).quality_bar ≤ 1 := by
  rw [builderUpdate_quality_bar]
  exact ⟨le_max_left _ _, max_le (by norm_num) (min_le_left _ _)⟩

/-- A run of `Builder.update` keeps the bar in [0,1]. -/
lemma builderRun_bounds (steps : List (ℚ × Bool)) (b : Builder)
    (h0 : 0 ≤ b.quality_bar) (h1 : b.quality_bar ≤ 1) :
    0 ≤ (builderRun b steps).quality_bar ∧
    (builderRun b steps).quality_bar ≤ 1 := by
  induction steps generalizing b with
  | nil => exact ⟨h0, h1⟩
  | cons s rest ih =>
      have hb := builderUpdate_bounds b s.1 s.2
      simpa [builderRun, List.foldl_cons] using ih (b.update s.1 s.2) hb.1 hb.2

/-! ## Claim theorems -/

/-- Claim C7: for every sequence of `Builder.update` calls with arbitrary
dt values and inputs (in particular all non-negative dt), starting from
any quality_bar value, quality_bar lies within [0,1] after every update
call: each update decays, optionally fills, then clamps to [0,1]. -/
theorem C7_builder_bar_in_unit_interval (b : Builder) (dt : ℚ)
    (anyHeld : Bool) (steps : List (ℚ × Bool)) :
    0 ≤ (builderRun (b.update dt anyHeld) steps).quality_bar ∧
    (builderRun (b.update dt anyHeld) steps).quality_bar ≤ 1 :=
  builderRun_bounds steps _ (builderUpdate_bounds b dt anyHeld).1
    (builderUpdate_bounds b dt anyHeld).2

/-- Claim C3: the tier selected when a round starts is a pure function of
the round number: rounds 1–3 map to Easy, 4–7 to Standard, 8 and above to
Nightmare (in particular at 1, 3, 4, 7, 8, 20), and `start_new_round`
stores exactly `tierFor` of the new round number. -/
theorem C3_tier_thresholds :
    (∀ n, 1 ≤ n → n ≤ 3 → tierFor n = .easy) ∧
    (∀ n, 4 ≤ n → n ≤ 7 → tierFor n = .standard) ∧
    (∀ n, 8 ≤ n → tierFor n = .nightmare) ∧
    (tierFor 1 = .easy ∧ tierFor 3 = .easy ∧ tierFor 4 = .standard ∧
     tierFor 7 = .standard ∧ tierFor 8 = .nightmare ∧ tierFor 20 = .nightmare) ∧
    (∀ (g : Game) (i : Nat),
        (g.start_new_round i).current_tier =
          some (tierFor (g.start_new_round i).round_number)) := by
  refine ⟨?_, ?_, ?_, ⟨rfl, rfl, rfl, rfl, rfl, rfl⟩, fun g i => rfl⟩
  · intro n _ h2
    rw [tierFor, if_pos h2]
  · intro n h1 h2
    rw [tierFor, if_neg (by omega), if_pos h2]
  · intro n h
    rw [tierFor, if_neg (by omega), if_neg (by omega)]

/-- Witness for C3 at concrete round numbers 2, 5 and 9. -/
theorem C3_tier_thresholds_witness :
    tierFor 2 = .easy ∧ tierFor 5 = .standard ∧ tierFor 9 = .nightmare :=
  ⟨C3_tier_thresholds.1 2 (by norm_num) (by norm_num),
   C3_tier_thresholds.2.1 5 (by norm_num) (by norm_num),
   C3_tier_thresholds.2.2.1 9 (by norm_num)⟩

/-- Claim C5: `Wrapper.check_success` is false when the player never
pressed; otherwise it is true iff press_position lies in the inclusive
interval [zone_center − zone_size/2, zone_center + zone_size/2] with
zone_center = 0.5; hence for every zone_size in (0,1] a press exactly at
0.5 succeeds, and a press at distance greater than zone_size/2 from 0.5
fails. -/
theorem C5_wrapper_zone (w : Wrapper) (hc : w.zone_center = 1/2) :
    (w.press_position = none → w.check_success = false) ∧
    (∀ p, w.press_position = some p →
        (w.check_success = true ↔
          1/2 - w.zone_size / 2 ≤ p ∧ p ≤ 1/2 + w.zone_size / 2)) ∧
    (0 < w.zone_size → w.zone_size ≤ 1 →
        w.press_position = some (1/2) → w.check_success = true) ∧
    (∀ p, w.press_position = some p → w.zone_size / 2 < |p - 1/2| →
        w.check_success = false) := by
  refine ⟨?_, ?_, ?_, ?_⟩
  · intro h
    simp [Wrapper.check_success, h]
  · intro p hp
    simp [Wrapper.check_success, hp, hc]
  · intro hz _ hp
    simp only [Wrapper.check_success, hp, hc]
    have h1 : w.zone_center - w.zone_size / 2 ≤ 1/2 := by rw [hc]; linarith
    have h2 : (1:ℚ)/2 ≤ w.zone_center + w.zone_size / 2 := by rw [hc]; linarith
    simp [hc] at h1 h2
    simp [h1, h2]
  · intro p hp habs
    rcases lt_abs.mp habs with h | h
    · simp only [Wrapper.check_success, hp, hc]
      have hnb : ¬ (p ≤ 1/2 + w.zone_size / 2) := by linarith
      rw [decide_eq_false hnb, Bool.and_false]
    · simp only [Wrapper.check_success, hp, hc]
      have hnb : ¬ (1/2 - w.zone_size / 2 ≤ p) := by linarith
      rw [decide_eq_false hnb, Bool.false_and]

/-- Witness for C5: a press recorded exactly at the zone center succeeds
with the default zone. -/
theorem C5_wrapper_zone_witness :
    Wrapper.check_success
      { Wrapper.init with press_position := some (1/2) } = true :=
  (C5_wrapper_zone { Wrapper.init with press_position := some (1/2) }
      rfl).2.2.1 (by norm_num [Wrapper.init]) (by norm_num [Wrapper.init]) rfl

/-- A no-input Foreman run with zero drift multiplier keeps the needle at
the exact center, and the multiplier at zero. -/
lemma foremanRunNoInput_still (steps : List (ℚ × ℚ)) (f : Foreman)
    (h0 : f.drift_multiplier = 0) (hn : f.needle_position = 1/2) :
    (foremanRunNoInput f steps).needle_position = 1/2 ∧
    (foremanRunNoInput f steps).drift_multiplier = 0 := by
  induction steps generalizing f with
  | nil => exact ⟨hn, h0⟩
  | cons s rest ih =>
      have hupd : (f.update s.1 s.2 false false).needle_position = 1/2 ∧
          (f.update s.1 s.2 false false).drift_multiplier = 0 := by
        constructor
        · show max 0 (min 1 (f.needle_position +
              s.2 * f.drift_speed * f.drift_multiplier * s.1)) = 1/2
          rw [h0, hn]
          norm_num
        · exact h0
      simpa [foremanRunNoInput, List.foldl_cons] using
        ih (f.update s.1 s.2 false false) hupd.2 hupd.1

/-- Claim C8: if the Foreman's drift_multiplier is 0 and neither control
is held, needle_position stays exactly 0.5 after any number of updates
with any dt (and drift draw) values, and check_success returns true; in
general, check_success is true iff |needle_position − 0.5| < 0.3. -/
theorem C8_foreman_center (f : Foreman)
    (h0 : f.drift_multiplier = 0) (hn : f.needle_position = 1/2) :
    (∀ steps, (foremanRunNoInput f steps).needle_position = 1/2 ∧
              (foremanRunNoInput f steps).check_success = true) ∧
    (∀ f' : Foreman,
        f'.check_success = true ↔ |f'.needle_position - 1/2| < 3/10) := by
  constructor
  · intro steps
    have h := foremanRunNoInput_still steps f h0 hn
    refine ⟨h.1, ?_⟩
    simp [Foreman.check_success, h.1]
  · intro f'
    simp [Foreman.check_success]

/-- Witness for C8 at a concrete zero-drift Foreman and two ticks. -/
theorem C8_foreman_center_witness :
    (foremanRunNoInput { Foreman.init with drift_multiplier := 0 }
      [(1, 1), (2, -1)]).check_success = true :=
  ((C8_foreman_center { Foreman.init with drift_multiplier := 0 }
      rfl rfl).1 [(1, 1), (2, -1)]).2

/-- Claim C4: at the Playing→Reveal transition the orchestrator evaluates
the four success predicates in the fixed order Builder, Wrapper,
Decorator, Foreman, builds a result whose four booleans sum to a round
score between 0 and 4, and adds that score to the cumulative score, which
therefore never decreases and stays a non-negative integer. -/
theorem C4_end_action_phase_score (g : Game) :
    (g.end_action_phase).round_results =
      some ⟨(g.current_order.map OrderDef.name).getD "",
            [g.builder.check_success, g.wrapper.check_success,
             g.decorator.check_success, g.foreman.check_success]⟩ ∧
    (g.end_action_phase).score =
      g.score + ([g.builder.check_success, g.wrapper.check_success,
                  g.decorator.check_success,
                  g.foreman.check_success].count true : ℤ) ∧
    [g.builder.check_success, g.wrapper.check_success,
     g.decorator.check_success, g.foreman.check_success].count true ≤ 4 ∧
    g.score ≤ (g.end_action_phase).score ∧
    (0 ≤ g.score → 0 ≤ (g.end_action_phase).score) := by
  have hcount :
      [g.builder.check_success, g.wrapper.check_success,
       g.decorator.check_success, g.foreman.check_success].count true ≤ 4 := by
    simpa using List.count_le_length true
      [g.builder.check_success, g.wrapper.check_success,
       g.decorator.check_success, g.foreman.check_success]
  have hscore : (g.end_action_phase).score =
      g.score + ([g.builder.check_success, g.wrapper.check_success,
                  g.decorator.check_success,
                  g.foreman.check_success].count true : ℤ) := rfl
  have hmono : g.score ≤ (g.end_action_phase).score := by
    rw [hscore]
    exact le_add_of_nonneg_right (Int.natCast_nonneg _)
  exact ⟨rfl, hscore, hcount, hmono, fun h => le_trans h hmono⟩

/-- Witness for C4 at the initial game state. -/
theorem C4_end_action_phase_score_witness :
    0 ≤ (Game.init.end_action_phase).score :=
  (C4_end_action_phase_score Game.init).2.2.2.2 (by norm_num [Game.init])

/-- With a catalog decay rate (≥ 0.3 > fill rate 0.15) and a positive dt,
one `Builder.update` strictly lowers a bar that starts in (0,1]. -/
lemma builderUpdate_strict_decrease (b : Builder) (dt : ℚ) (i : Bool)
    (hdr : 3/10 ≤ b.decay_rate) (hfr : b.fill_rate = 3/20)
    (hdt : 0 < dt) (hq1 : b.quality_bar ≤ 1) (hq0 : 0 < b.quality_bar) :
    (b.update dt i).quality_bar < b.quality_bar := by
  rw [builderUpdate_quality_bar]
  have hfd : b.fill_rate * dt < b.decay_rate * dt := by
    apply mul_lt_mul_of_pos_right _ hdt
    rw [hfr]; linarith
  have hd0 : 0 < b.decay_rate * dt := by
    apply mul_pos _ hdt
    linarith
  have hpre :
      (if i then b.quality_bar - b.decay_rate * dt + b.fill_rate * dt
       else b.quality_bar - b.decay_rate * dt) < b.quality_bar := by
    split <;> linarith
  exact max_lt hq0 (lt_of_le_of_lt (min_le_right _ _) hpre)

/-- With a catalog decay rate and a non-negative dt, `Builder.update`
never raises a bar that starts at or above 0. -/
lemma builderUpdate_nonincreasing (b : Builder) (dt : ℚ) (i : Bool)
    (hdr : 3/10 ≤ b.decay_rate) (hfr : b.fill_rate = 3/20)
    (hdt : 0 ≤ dt) (hq0 : 0 ≤ b.quality_bar) :
    (b.update dt i).quality_bar ≤ b.quality_bar := by
  rw [builderUpdate_quality_bar]
  have hfd : b.fill_rate * dt ≤ b.decay_rate * dt := by
    apply mul_le_mul_of_nonneg_right _ hdt
    rw [hfr]; linarith
  have hd0 : 0 ≤ b.decay_rate * dt := by
    apply mul_nonneg _ hdt
    linarith
  have hpre :
      (if i then b.quality_bar - b.decay_rate * dt + b.fill_rate * dt
       else b.quality_bar - b.decay_rate * dt) ≤ b.quality_bar := by
    split <;> linarith
  exact max_le hq0 (le_trans (min_le_right _ _) hpre)

/-- A run of `Builder.update` with non-negative dt values and a catalog
decay rate keeps a bar that is below the threshold below it. -/
lemma builderRun_below (steps : List (ℚ × Bool)) (b : Builder)
    (hdr : 3/10 ≤ b.decay_rate) (hfr : b.fill_rate = 3/20)
    (hsteps : ∀ s ∈ steps, (0:ℚ) ≤ s.1)
    (h0 : 0 ≤ b.quality_bar) (hlt : b.quality_bar < 1/2) :
    (builderRun b steps).quality_bar < 1/2 := by
  induction steps generalizing b with
  | nil => exact hlt
  | cons s rest ih =>
      have hd : (0:ℚ) ≤ s.1 := hsteps s (by simp)
      have hle := builderUpdate_nonincreasing b s.1 s.2 hdr hfr hd h0
      have hb := (builderUpdate_bounds b s.1 s.2).1
      simpa [builderRun, List.foldl_cons] using
        ih (b.update s.1 s.2) hdr hfr (fun t ht => hsteps t (by simp [ht]))
          hb (lt_of_le_of_lt hle hlt)

/-- Claim C2: every shipped order has p1_decay_rate ≥ 0.3, strictly above
the fixed fill rate 0.15; with such a decay rate each `Builder.update`
with dt > 0 strictly decreases the bar until it clamps at 0; hence from
the reset value 0.5, after one dt > 0 update followed by any further
non-negative-dt updates, the bar is below 0.5 and check_success is false
— the Builder can never succeed in a round of positive duration. -/
theorem C2_builder_cannot_succeed :
    (∀ t : OrderTier, ∀ o ∈ ORDERS t, 3/10 ≤ o.p1_decay_rate) ∧
    (∀ (b : Builder) (dt : ℚ) (i : Bool),
        3/10 ≤ b.decay_rate → b.fill_rate = 3/20 → 0 < dt →
        b.quality_bar ≤ 1 →
        (0 < b.quality_bar →
            (b.update dt i).quality_bar < b.quality_bar) ∧
        (b.quality_bar = 0 → (b.update dt i).quality_bar = 0)) ∧
    (∀ (b : Builder) (dt : ℚ) (i : Bool) (steps : List (ℚ × Bool)),
        3/10 ≤ b.decay_rate → b.fill_rate = 3/20 → b.quality_bar = 1/2 →
        0 < dt → (∀ s ∈ steps, (0:ℚ) ≤ s.1) →
        (builderRun (b.update dt i) steps).quality_bar < 1/2 ∧
        (builderRun (b.update dt i) steps).check_success = false) := by
  refine ⟨?_, ?_, ?_⟩
  · intro t o ho
    cases t <;>
      simp only [ORDERS, List.mem_cons, List.not_mem_nil, or_false] at ho <;>
      rcases ho with rfl | rfl | rfl <;> norm_num
  · intro b dt i hdr hfr hdt hq1
    refine ⟨fun hq0 => builderUpdate_strict_decrease b dt i hdr hfr hdt hq1 hq0,
            fun hz => ?_⟩
    rw [builderUpdate_quality_bar]
    have hd0 : 0 < b.decay_rate * dt := by
      apply mul_pos _ hdt
      linarith
    have hf0 : b.fill_rate * dt < b.decay_rate * dt := by
      apply mul_lt_mul_of_pos_right _ hdt
      rw [hfr]; linarith
    have hpre :
        (if i then b.quality_bar - b.decay_rate * dt + b.fill_rate * dt
         else b.quality_bar - b.decay_rate * dt) < 0 := by
      split <;> (rw [hz]; linarith)
    rw [min_eq_right (by linarith), max_eq_left (le_of_lt hpre)]
  · intro b dt i steps hdr hfr hq hdt hsteps
    have hlt : (b.update dt i).quality_bar < 1/2 := by
      have := builderUpdate_strict_decrease b dt i hdr hfr hdt
        (by rw [hq]; norm_num) (by rw [hq]; norm_num)
      rw [hq] at this
      exact this
    have h0 := (builderUpdate_bounds b dt i).1
    have hrun := builderRun_below steps (b.update dt i) hdr hfr hsteps h0 hlt
    refine ⟨hrun, ?_⟩
    simp only [Builder.check_success, BUILDER_QUALITY_LINE]
    exact decide_eq_false (not_le.mpr hrun)

/-- Witness for C2: a Builder configured with the easiest shipped decay
rate, at the reset bar value, fails after a single one-second update. -/
theorem C2_builder_cannot_succeed_witness :
    (builderRun (Builder.update ⟨false, 1/2, 3/10, 3/20⟩ 1 true)
      []).check_success = false :=
  (C2_builder_cannot_succeed.2.2 ⟨false, 1/2, 3/10, 3/20⟩ 1 true []
    (by norm_num) rfl rfl (by norm_num) (by simp)).2

/-- Claim C6: on a Decorator tick with the sequence not completed and the
cursor inside the sequence, a pressed set containing the expected
direction advances the cursor by exactly 1 (inclusion test, extra wrong
directions allowed); a non-empty pressed set without it resets the cursor
to 0; an empty pressed set leaves the cursor unchanged. -/
theorem C6_decorator_tick (d : Decorator) (dt : ℚ)
    (pressed : List Direction) (hc : d.completed = false)
    (hlt : d.current_index < d.arrow_sequence.length) :
    (d.arrow_sequence.get ⟨d.current_index, hlt⟩ ∈ pressed →
        (d.update dt pressed).current_index = d.current_index + 1) ∧
    (d.arrow_sequence.get ⟨d.current_index, hlt⟩ ∉ pressed →
        pressed ≠ [] → (d.update dt pressed).current_index = 0) ∧
    (pressed = [] →
        (d.update dt pressed).current_index = d.current_index) := by
  have h1 : ¬ (d.arrow_sequence.length ≤ d.current_index) := not_le.mpr hlt
  refine ⟨?_, ?_, ?_⟩
  · intro hmem
    rw [List.get_eq_getElem] at hmem
    simp [Decorator.update, hc, h1, hmem]
  · intro hmem hne
    rw [List.get_eq_getElem] at hmem
    have hpos : 0 < pressed.length := List.length_pos.mpr hne
    simp [Decorator.update, hc, h1, hmem, hpos]
  · intro hempty
    subst hempty
    simp [Decorator.update, hc, h1]

/-- Witness for C6: with sequence [up, down] at index 1, pressing left and
down together still advances to 2. -/
theorem C6_decorator_tick_witness :
    (Decorator.update ⟨false, [.up, .down], 1, false⟩ 1
      [.left, .down]).current_index = 2 :=
  (C6_decorator_tick ⟨false, [.up, .down], 1, false⟩ 1 [.left, .down]
    rfl (by decide)).1 (by decide)

/-- A Wrapper state left over from a round in which the cursor hit the
right bound: one update of 2 seconds from the initial state flips the
direction to −1. -/
def staleWrapper : Wrapper := Wrapper.init.update 2 false

/-- Evaluation of `staleWrapper`. -/
lemma staleWrapper_eq :
    staleWrapper =
      { Wrapper.init with cursor_position := 1, cursor_direction := -1 } := by
  rw [staleWrapper, Wrapper.update]
  norm_num [Wrapper.init]

/-- Counterexample to claim C10: `Wrapper.reset` does not restore
cursor_direction.  After a prior round in which the cursor bounced off
the right bound, reset leaves cursor_direction = −1 (the initial value is
1), and the stale direction is observable in the next round: a press on
the first half-second tick records press_position 0 instead of the 2/5 a
fresh wrapper records. -/
theorem C10_counterexample :
    staleWrapper.reset.cursor_direction = -1 ∧
    Wrapper.init.cursor_direction = 1 ∧
    (staleWrapper.reset.update (1/2) true).press_position = some 0 ∧
    ((Wrapper.init.reset).update (1/2) true).press_position = some (2/5) := by
  refine ⟨?_, rfl, ?_, ?_⟩
  · rw [staleWrapper_eq]; rfl
  · rw [staleWrapper_eq, Wrapper.reset, Wrapper.update]
    norm_num [Wrapper.init]
  · rw [Wrapper.reset, Wrapper.update]
    norm_num [Wrapper.init]

/-- Claim C10 (amended): reset fully replaces each mechanic's per-round
mutable state with its start-of-round value — Builder's quality_bar and
success flag, Decorator's cursor and completed/success flags, Foreman's
needle and success flag, and Wrapper's cursor_position, has_pressed,
press_position and success flag — while leaving the configuration fields
(replaced separately by configure each round) alone; the one exception is
the Wrapper's cursor_direction, which reset does not restore and which
keeps its value from the prior round. -/
theorem C10_reset_fields (b : Builder) (w : Wrapper) (d : Decorator)
    (f : Foreman) :
    (b.reset.success = false ∧ b.reset.quality_bar = 1/2 ∧
     b.reset.decay_rate = b.decay_rate ∧
     b.reset.fill_rate = b.fill_rate) ∧
    (d.reset.success = false ∧ d.reset.current_index = 0 ∧
     d.reset.completed = false ∧
     d.reset.arrow_sequence = d.arrow_sequence) ∧
    (f.reset.success = false ∧ f.reset.needle_position = 1/2 ∧
     f.reset.drift_speed = f.drift_speed ∧
     f.reset.control_speed = f.control_speed ∧
     f.reset.drift_multiplier = f.drift_multiplier) ∧
    (w.reset.cursor_position = 0 ∧ w.reset.has_pressed = false ∧
     w.reset.press_position = none ∧ w.reset.success = false ∧
     w.reset.cursor_speed = w.cursor_speed ∧
     w.reset.zone_size = w.zone_size ∧
     w.reset.zone_center = w.zone_center ∧
     w.reset.cursor_direction = w.cursor_direction) :=
  ⟨⟨rfl, rfl, rfl, rfl⟩, ⟨rfl, rfl, rfl, rfl⟩, ⟨rfl, rfl, rfl, rfl, rfl⟩,
   ⟨rfl, rfl, rfl, rfl, rfl, rfl, rfl, rfl⟩⟩

/-- Running the Decorator over the ticks that press exactly the remaining
expected arrows, one per tick, advances the cursor to the end of the
sequence; the completed flag is not yet set by those ticks. -/
lemma decoratorRun_remaining (rest : List Direction) :
    ∀ d : Decorator, d.completed = false →
      d.arrow_sequence.drop d.current_index = rest →
      d.current_index ≤ d.arrow_sequence.length →
      decoratorRun d (rest.map fun a => [a]) =
        { d with current_index := d.arrow_sequence.length } := by
  induction rest with
  | nil =>
      intro d _ hdrop hle
      have hlen : d.arrow_sequence.length ≤ d.current_index :=
        List.drop_eq_nil_iff.mp hdrop
      have heq : d.current_index = d.arrow_sequence.length :=
        le_antisymm hle hlen
      simp only [List.map_nil, decoratorRun, List.foldl_nil]
      rw [← heq]
  | cons a rest ih =>
      intro d hc hdrop _
      have hci : d.current_index < d.arrow_sequence.length := by
        by_contra hge
        rw [List.drop_eq_nil_iff.mpr (by omega)] at hdrop
        exact (List.cons_ne_nil a rest) hdrop.symm
      have hkey : d.arrow_sequence.get ⟨d.current_index, hci⟩ ::
          d.arrow_sequence.drop (d.current_index + 1) = a :: rest := by
        rw [List.get_eq_getElem, List.getElem_cons_drop, hdrop]
      injection hkey with ha hrest
      have h1 : ¬ (d.arrow_sequence.length ≤ d.current_index) :=
        not_le.mpr hci
      rw [List.get_eq_getElem] at ha
      have hupd : d.update 1 [a] =
          { d with current_index := d.current_index + 1 } := by
        simp [Decorator.update, hc, h1, ha]
      have hrun : decoratorRun d ((a :: rest).map fun x => [x]) =
          decoratorRun (d.update 1 [a]) (rest.map fun x => [x]) := by
        simp [decoratorRun, List.foldl_cons]
      rw [hrun, hupd,
        ih { d with current_index := d.current_index + 1 } hc hrest hci]

/-- Claim C1 (amended): entering the correct direction N times
consecutively (one press per tick, each matching the expected element)
advances cursor_index to N = sequence length, but completed, success and
hence check_success are still false on the tick of the Nth press (so a
Playing-timer expiry on that same tick evaluates the Decorator as
failed); the immediately following update tick, whatever its input, sets
completed = true and success = true without waiting for the phase timer,
after which check_success() = true and cursor_index = N. -/
theorem C1_completion_next_tick (d : Decorator) (inp : List Direction)
    (hc : d.completed = false) (hs : d.success = false)
    (hi : d.current_index = 0) :
    (decoratorRun d (d.arrow_sequence.map fun a => [a])).current_index =
        d.arrow_sequence.length ∧
    (decoratorRun d (d.arrow_sequence.map fun a => [a])).check_success =
        false ∧
    ((decoratorRun d (d.arrow_sequence.map fun a => [a])).update 1
        inp).completed = true ∧
    ((decoratorRun d (d.arrow_sequence.map fun a => [a])).update 1
        inp).success = true ∧
    ((decoratorRun d (d.arrow_sequence.map fun a => [a])).update 1
        inp).check_success = true ∧
    ((decoratorRun d (d.arrow_sequence.map fun a => [a])).update 1
        inp).current_index = d.arrow_sequence.length := by
  have hrun := decoratorRun_remaining d.arrow_sequence d hc
    (by rw [hi, List.drop_zero]) (by omega)
  have hupd : ({ d with current_index := d.arrow_sequence.length} :
      Decorator).update 1 inp =
      { d with current_index := d.arrow_sequence.length,
               completed := true, success := true } := by
    rw [Decorator.update, if_neg (by simp [hc]), dif_pos (by simp)]
  rw [hrun, hupd]
  exact ⟨rfl, by simpa [Decorator.check_success] using hs, rfl, rfl, rfl, rfl⟩

/-- Witness for the amended C1 at the concrete sequence [up, down]. -/
theorem C1_completion_next_tick_witness :
    ((decoratorRun ⟨false, [.up, .down], 0, false⟩
      ([Direction.up, Direction.down].map fun a => [a])).update 1
        []).check_success = true :=
  (C1_completion_next_tick ⟨false, [.up, .down], 0, false⟩ []
    rfl rfl rfl).2.2.2.2.1

/-- A Playing-state game half a second before timer expiry whose
Decorator needs exactly one more correct press. -/
def lastTickGame : Game :=
  { Game.init with
      state := .playing,
      state_timer := 1/2,
      decorator := { Decorator.init with arrow_sequence := [.up] } }

/-- The input snapshot pressing exactly the expected arrow. -/
def upPress : InputSnapshot := ⟨false, false, [.up], false, false, false⟩

/-- Counterexample to claim C1 as stated: when the Playing timer expires
on the same tick as the Nth (here the only) correct press, the game
transitions to Reveal with the Decorator's cursor_index = N but
check_success() = false — completion is only registered at the start of
the next update tick, which never comes. -/
theorem C1_counterexample :
    (lastTickGame.update 1 upPress 0 (fun _ => .up) 0).state = .reveal ∧
    (lastTickGame.update 1 upPress 0
      (fun _ => .up) 0).decorator.current_index = 1 ∧
    (lastTickGame.update 1 upPress 0
      (fun _ => .up) 0).decorator.check_success = false ∧
    (lastTickGame.update 1 upPress 0 (fun _ => .up) 0).round_results =
      some ⟨"", [false, false, false, true]⟩ := by
  norm_num [lastTickGame, upPress, Game.update, Game.init,
    Game.end_action_phase, Decorator.update, Decorator.init,
    Decorator.check_success, Builder.update, Builder.init,
    Builder.check_success, Wrapper.update, Wrapper.init,
    Wrapper.check_success, Foreman.update, Foreman.init,
    Foreman.check_success, BUILDER_QUALITY_LINE, REVEAL_DURATION]

/-- Claim C9: with the Playing timer already at or below zero (as after a
zero or negative configured time limit), one update tick still
transitions Playing to Reveal and produces a four-boolean evaluation
instead of stalling; and a Decorator configured with an empty arrow
sequence is completed (success set) by its first update of that same
tick, so the round-end evaluation reads true for it. -/
theorem C9_degenerate_config (g : Game) (dt : ℚ) (inp : InputSnapshot)
    (r : ℚ) (draw : Nat → Direction) (ci : Nat)
    (hstate : g.state = .playing) (ht : g.state_timer ≤ 0) (hdt : 0 ≤ dt) :
    (g.update dt inp r draw ci).state = .reveal ∧
    (∃ rr, (g.update dt inp r draw ci).round_results = some rr ∧
        rr.successes.length = 4) ∧
    (g.decorator.arrow_sequence = [] → g.decorator.completed = false →
        ∃ rr, (g.update dt inp r draw ci).round_results = some rr ∧
          rr.successes =
            [(g.builder.update dt inp.p1_any).check_success,
             (g.wrapper.update dt inp.p2_pressed).check_success,
             true,
             (g.foreman.update dt r inp.p4_left
               inp.p4_right).check_success]) := by
  have htimer : g.state_timer - dt ≤ 0 := by linarith
  have hstep : g.update dt inp r draw ci =
      Game.end_action_phase
        { g with state_timer := g.state_timer - dt,
                 builder := g.builder.update dt inp.p1_any,
                 wrapper := g.wrapper.update dt inp.p2_pressed,
                 decorator := g.decorator.update dt inp.p3_arrows,
                 foreman := g.foreman.update dt r inp.p4_left
                   inp.p4_right } := by
    rw [Game.update.eq_def, hstate]
    simp only [if_pos htimer]
  rw [hstep]
  refine ⟨rfl, ⟨_, rfl, rfl⟩, ?_⟩
  intro he hcomp
  have hdec : g.decorator.update dt inp.p3_arrows =
      { g.decorator with completed := true, success := true } := by
    rw [Decorator.update, if_neg (by simp [hcomp]),
      dif_pos (by rw [he]; simp)]
  refine ⟨_, rfl, ?_⟩
  simp [Game.end_action_phase, Decorator.check_success, hdec]

/-- A Playing-state game with an expired timer and an empty Decorator
sequence. -/
def zeroTimerGame : Game :=
  { Game.init with
      state := .playing,
      state_timer := 0,
      decorator := { Decorator.init with arrow_sequence := [] } }

/-- Witness for C9: a zero time limit still reaches Reveal in one tick. -/
theorem C9_degenerate_config_witness :
    (zeroTimerGame.update 1 ⟨false, false, [], false, false, false⟩ 0
      (fun _ => .up) 0).state = .reveal :=
  (C9_degenerate_config zeroTimerGame 1
    ⟨false, false, [], false, false, false⟩ 0 (fun _ => .up) 0 rfl
    (by norm_num [zeroTimerGame, Game.init]) (by norm_num)).1

end HolidayPanic
